import Mathlib

/-!
Shallow embedding of the persistence layer of the `finance` repository
(`src/database/`): data model, migrations, and the category / transaction /
budget / settings services, together with theorems checking the
natural-language specification against this embedding.

Conventions of the embedding:
* SQLite rows are Lean structures; tables are lists of rows held in `AppState`.
* JS numbers carrying money are rationals (`ℚ`); `amount` fields received
  from callers are `Option ℚ`, `none` standing for an absent or non-numeric
  JS value (all of which fail the `!data.amount || typeof !== 'number'` guard
  in the source in the same way).
* Optional JS arguments are `Option`; `none` also stands for the empty
  string, which the source treats identically through JS falsiness.
* `new Date()` is passed in explicitly as `now` (ISO timestamp string) and
  `today` (ISO date string).
* Fallible operations return `Except DbError`; an `Except.error` result
  carries no state, matching a thrown JS error that aborts before any write.
-/

namespace Finance

/-- Error taxonomy of the spec (§7); the source throws `Error` with the
message strings reproduced here verbatim. -/
inductive DbError where
  | validation (msg : String)
  | constraint (msg : String)
  | notFound (msg : String)
  deriving DecidableEq, Repr

/-- Row of the `categories` table. -/
structure Category where
  id : Nat
  name : String
  icon : Option String
  color : Option String
  is_default : Nat
  created_at : String
  deriving DecidableEq, Repr

/-- Row of the `transactions` table; `type` is `"income"` or `"expense"`. -/
structure Transaction where
  id : Nat
  amount : ℚ
  description : String
  date : String
  type : String
  category_id : Option Nat
  is_manually_set : Nat
  source : String
  raw_data : Option String
  created_at : String
  updated_at : String
  deriving DecidableEq, Repr

/-- Row of the `budgets` table. -/
structure Budget where
  id : Nat
  category_id : Nat
  amount : ℚ
  period : String
  start_date : String
  end_date : Option String
  created_at : String
  updated_at : String
  deriving DecidableEq, Repr

/-- Row of the `settings` table. -/
structure SettingRow where
  key : String
  value : String
  updated_at : String
  deriving DecidableEq, Repr

/-- The whole store: DDL-level state (`tables`, `indexes`) plus the rows of
the four tables and the AUTOINCREMENT counters. -/
structure AppState where
  tables : List String
  indexes : List String
  categories : List Category
  transactions : List Transaction
  budgets : List Budget
  settings : List SettingRow
  nextCategoryId : Nat
  nextTransactionId : Nat
  nextBudgetId : Nat
  deriving DecidableEq, Repr

/-- `DATABASE_VERSION` from `init.js`. -/
def DATABASE_VERSION : Nat := 1

/-- A completely fresh store: no tables, no rows, no version key. -/
def freshState : AppState :=
  { tables := [], indexes := [], categories := [], transactions := [],
    budgets := [], settings := [], nextCategoryId := 1,
    nextTransactionId := 1, nextBudgetId := 1 }

/-- Lexicographic comparison of character lists, byte order on ASCII — the
comparison SQLite's default BINARY collation applies to TEXT operands. -/
def charListLt : List Char → List Char → Bool
  | [], [] => false
  | [], _ :: _ => true
  | _ :: _, [] => false
  | a :: as, b :: bs =>
    if a < b then true else if b < a then false else charListLt as bs

/-- SQLite `<` on TEXT values. -/
def strLt (a b : String) : Bool :=
  charListLt a.toList b.toList

/-- JS `String.prototype.trim`: strip leading and trailing whitespace. -/
def trimJS (s : String) : String :=
  ⟨((s.toList.dropWhile Char.isWhitespace).reverse.dropWhile
      Char.isWhitespace).reverse⟩

/-- JS `parseInt(v, 10)` restricted to the values this layer stores: all
digits parse to the number, anything else is `NaN`, modelled as `none`. -/
def parseIntJS (s : String) : Option Nat :=
  match s.toList with
  | [] => none
  | cs =>
    if cs.all Char.isDigit then
      some (cs.foldl (fun a c => a * 10 + (c.toNat - 48)) 0)
    else none

/-- `SELECT * FROM settings WHERE key = ?` on the rows of the settings table. -/
def findSetting (st : List SettingRow) (k : String) : Option SettingRow :=
  st.find? (fun r => r.key == k)

/-- `INSERT OR REPLACE INTO settings`: the conflicting row (if any) is
replaced by the new one. -/
def upsertSetting (st : List SettingRow) (k v now : String) : List SettingRow :=
  (st.filter (fun r => !(r.key == k))) ++ [⟨k, v, now⟩]

/-- `CREATE TABLE IF NOT EXISTS` / `CREATE INDEX IF NOT EXISTS`. -/
def addIfAbsent (l : List String) (x : String) : List String :=
  if x ∈ l then l else l ++ [x]

/-- `createTables` of `migrations.js`: the four `CREATE TABLE IF NOT EXISTS`
statements, in source order. -/
def createTables (s : AppState) : AppState :=
  { s with tables :=
      addIfAbsent (addIfAbsent (addIfAbsent (addIfAbsent s.tables
        "categories") "transactions") "budgets") "settings" }

/-- `createIndexes` of `migrations.js`: the four `CREATE INDEX IF NOT EXISTS`
statements, in source order. -/
def createIndexes (s : AppState) : AppState :=
  { s with indexes :=
      addIfAbsent (addIfAbsent (addIfAbsent (addIfAbsent s.indexes
        "idx_transactions_date") "idx_transactions_category")
        "idx_transactions_type") "idx_budgets_category" }

/-- `getDatabaseVersion` of `migrations.js`. The query throws when the
settings table does not exist and the catch returns 0; a present row is fed
to `parseInt`, whose `NaN` outcome (non-numeric stored text) is modelled as
`none` — every comparison against `NaN` in the caller is false, which the
caller's `match` below reproduces. -/
def getDatabaseVersionJS (s : AppState) : Option Nat :=
  if "settings" ∈ s.tables then
    match findSetting s.settings "db_version" with
    | some row => parseIntJS row.value
    | none => some 0
  else some 0

/-- `setDatabaseVersion` of `migrations.js`. -/
def setDatabaseVersion (now : String) (v : Nat) (s : AppState) : AppState :=
  { s with settings := upsertSetting s.settings "db_version" (toString v) now }

/-- `isFirstLaunch` of `migrations.js`: stored version equal to 0. -/
def isFirstLaunch (s : AppState) : Bool :=
  getDatabaseVersionJS s == some 0

/-- `runMigrations` of `migrations.js`: create everything at version 0,
bump the version when behind, otherwise no-op. A `NaN` stored version
(`none`) fails each comparison and falls through to the no-op branch,
exactly as in JS. -/
def runMigrations (now : String) (s : AppState) : AppState :=
  match getDatabaseVersionJS s with
  | some v =>
    if v == 0 then
      setDatabaseVersion now DATABASE_VERSION (createIndexes (createTables s))
    else if v < DATABASE_VERSION then
      setDatabaseVersion now DATABASE_VERSION s
    else s
  | none => s

/-- Regex `^#[0-9A-F]{6}$/i` of `categoryService.validateCategory`. -/
def isHexColor (s : String) : Bool :=
  let cs := s.toList
  cs.length == 7 && cs.headI == '#' &&
    (cs.tail.all (fun c => c.isDigit || ('A' ≤ c && c ≤ 'F') || ('a' ≤ c && c ≤ 'f')))

/-- Regex `^\d{4}-\d{2}-\d{2}$` used for all date fields. -/
def isDateFormat (s : String) : Bool :=
  let cs := s.toList
  cs.length == 10 &&
    (cs.enum.all (fun p =>
      if p.1 == 4 || p.1 == 7 then p.2 == '-' else p.2.isDigit))

/-- Input record of `createCategory`; `none` components model absent or
falsy JS fields. -/
structure CategoryInput where
  name : Option String
  icon : Option String
  color : Option String
  is_default : Bool
  deriving DecidableEq, Repr

/-- `validateCategory` of `categoryService.js`, checks in source order. -/
def validateCategory (d : CategoryInput) : Option DbError :=
  match d.name with
  | none => some (.validation "Category name is required and must be a non-empty string")
  | some n =>
    if trimJS n == "" then
      some (.validation "Category name is required and must be a non-empty string")
    else match d.color with
      | some c =>
        if !isHexColor c then
          some (.validation "Color must be a valid hex color code (e.g., #FF6B6B)")
        else none
      | none => none

/-- `createCategory` of `categoryService.js`: validate, insert, translate a
`UNIQUE constraint failed` on the name into the "already exists" error. -/
def createCategory (now : String) (d : CategoryInput) (s : AppState) :
    Except DbError (Category × AppState) :=
  match validateCategory d with
  | some e => .error e
  | none =>
    let nm := trimJS (d.name.getD "")
    if s.categories.any (fun c => c.name == nm) then
      .error (.constraint s!"Category with name \x22{nm}\x22 already exists")
    else
      let cat : Category :=
        { id := s.nextCategoryId, name := nm, icon := d.icon, color := d.color,
          is_default := if d.is_default then 1 else 0, created_at := now }
      .ok (cat, { s with categories := s.categories ++ [cat],
                         nextCategoryId := s.nextCategoryId + 1 })

/-- `getCategoryById` of `categoryService.js`. -/
def getCategoryById (s : AppState) (id : Nat) : Option Category :=
  s.categories.find? (fun c => c.id == id)

/-- `deleteCategory` of `categoryService.js`: existence check, then the two
dependent-count queries, then `DELETE FROM categories WHERE id = ?`. -/
def deleteCategory (s : AppState) (id : Nat) : Except DbError AppState :=
  match getCategoryById s id with
  | none => .error (.notFound s!"Category with id {id} not found")
  | some _ =>
    let transactionCount :=
      (s.transactions.filter (fun t => t.category_id == some id)).length
    if transactionCount > 0 then
      .error (.constraint
        s!"Cannot delete category with {transactionCount} associated transaction(s)")
    else
      let budgetCount :=
        (s.budgets.filter (fun b => b.category_id == id)).length
      if budgetCount > 0 then
        .error (.constraint
          s!"Cannot delete category with {budgetCount} associated budget(s)")
      else
        .ok { s with categories := s.categories.filter (fun c => !(c.id == id)) }

/-- `DEFAULT_CATEGORIES` of `categoryService.js` (name, icon, color). -/
def DEFAULT_CATEGORIES : List (String × String × String) :=
  [("Food & Dining", "food", "#FF6B6B"),
   ("Transport", "car", "#4ECDC4"),
   ("Shopping", "shopping", "#45B7D1"),
   ("Bills & Utilities", "receipt", "#FFA07A"),
   ("Entertainment", "movie", "#98D8C8"),
   ("Health & Fitness", "heart", "#F7B731"),
   ("Education", "school", "#5F27CD"),
   ("Groceries", "cart", "#00D2D3"),
   ("Salary", "cash", "#1DD1A1"),
   ("Other Income", "cash-multiple", "#10AC84"),
   ("Uncategorized", "help-circle", "#95A5A6")]

/-- `seedDefaultCategories` of `categoryService.js`: create each default,
silently skipping the ones whose name "already exists"; any other error is
rethrown. -/
def seedDefaultCategories (now : String) (s : AppState) : Except DbError AppState :=
  DEFAULT_CATEGORIES.foldlM
    (fun st c =>
      match createCategory now
          { name := some c.1, icon := some c.2.1, color := some c.2.2,
            is_default := true } st with
      | .ok (_, st2) => .ok st2
      | .error (.constraint _) => .ok st
      | .error e => .error e)
    s

/-- `DEFAULT_SETTINGS` of `settingsService.js`, in `Object.entries` order. -/
def DEFAULT_SETTINGS : List (String × String) :=
  [("currency", "USD"), ("theme", "light"),
   ("notifications_enabled", "true"), ("budget_alerts_enabled", "true")]

/-- `initializeDefaultSettings` of `settingsService.js`: for each default
key, insert only when `getSetting` finds nothing. -/
def initializeDefaultSettings (now : String) (s : AppState) : AppState :=
  DEFAULT_SETTINGS.foldl
    (fun st kv =>
      match findSetting st.settings kv.1 with
      | some _ => st
      | none => { st with settings := upsertSetting st.settings kv.1 kv.2 now })
    s

/-- `initializeDatabase` of the database index module: open, migrate, then
seed categories and settings when `isFirstLaunch()` holds. -/
def initializeDatabase (now : String) (s : AppState) : Except DbError AppState :=
  let s1 := runMigrations now s
  if isFirstLaunch s1 then
    match seedDefaultCategories now s1 with
    | .ok s2 => .ok (initializeDefaultSettings now s2)
    | .error e => .error e
  else .ok s1

/-- JS `value || null` applied to an optional numeric id: `0` is falsy and
collapses to `null`. -/
def jsIdOrNull (v : Option Nat) : Option Nat :=
  match v with
  | some 0 => none
  | x => x

/-- Input record of `createTransaction` / `updateTransaction`. -/
structure TxInput where
  amount : Option ℚ
  description : Option String
  date : Option String
  type : Option String
  category_id : Option Nat
  is_manually_set : Bool
  source : Option String
  raw_data : Option String
  deriving DecidableEq, Repr

/-- The trailing `source` check of `validateTransaction`. -/
def validateTxSource (d : TxInput) : Option DbError :=
  match d.source with
  | some src =>
    if !(src == "manual" || src == "sms" || src == "upload") then
      some (.validation "Source must be \x22manual\x22, \x22sms\x22, or \x22upload\x22")
    else none
  | none => none

/-- `validateTransaction` of `transactionService.js`, checks in source
order. -/
def validateTransaction (d : TxInput) : Option DbError :=
  match d.amount with
  | none => some (.validation "Amount must be a number greater than 0")
  | some a =>
    if a ≤ 0 then some (.validation "Amount must be a number greater than 0")
    else match d.description with
      | none => some (.validation "Description is required and must be a non-empty string")
      | some descr =>
        if trimJS descr == "" then
          some (.validation "Description is required and must be a non-empty string")
        else match d.type with
          | none => some (.validation "Type must be either \x22income\x22 or \x22expense\x22")
          | some ty =>
            if !(ty == "income" || ty == "expense") then
              some (.validation "Type must be either \x22income\x22 or \x22expense\x22")
            else
              match d.date with
              | some dt =>
                if !isDateFormat dt then
                  some (.validation "Date must be in ISO 8601 format (YYYY-MM-DD)")
                else validateTxSource d
              | none => validateTxSource d

/-- `createTransaction` of `transactionService.js`. -/
def createTransaction (now today : String) (d : TxInput) (s : AppState) :
    Except DbError (Transaction × AppState) :=
  match validateTransaction d with
  | some e => .error e
  | none =>
    let date := d.date.getD today
    let tx : Transaction :=
      { id := s.nextTransactionId,
        amount := d.amount.getD 0,
        description := trimJS (d.description.getD ""),
        date := date,
        type := d.type.getD "",
        category_id := jsIdOrNull d.category_id,
        is_manually_set := if d.is_manually_set then 1 else 0,
        source := d.source.getD "manual",
        raw_data := d.raw_data,
        created_at := now, updated_at := now }
    .ok (tx, { s with transactions := s.transactions ++ [tx],
                      nextTransactionId := s.nextTransactionId + 1 })

/-- `getTransactionById` of `transactionService.js`; the `LEFT JOIN` keeps
the row whether or not its category exists. -/
def getTransactionById (s : AppState) (id : Nat) : Option Transaction :=
  s.transactions.find? (fun t => t.id == id)

/-- `updateTransaction` of `transactionService.js`: validate, check
existence, then overwrite every column — `date`, `source` and `raw_data`
falling back to the existing row, `category_id` falling back to `null`. -/
def updateTransaction (now : String) (id : Nat) (d : TxInput) (s : AppState) :
    Except DbError (Transaction × AppState) :=
  match validateTransaction d with
  | some e => .error e
  | none =>
    match getTransactionById s id with
    | none => .error (.notFound s!"Transaction with id {id} not found")
    | some existing =>
      let tx : Transaction :=
        { id := id,
          amount := d.amount.getD 0,
          description := trimJS (d.description.getD ""),
          date := d.date.getD existing.date,
          type := d.type.getD "",
          category_id := jsIdOrNull d.category_id,
          is_manually_set := if d.is_manually_set then 1 else 0,
          source := d.source.getD existing.source,
          raw_data := d.raw_data.or existing.raw_data,
          created_at := existing.created_at, updated_at := now }
      .ok (tx, { s with transactions :=
                   s.transactions.map (fun t => if t.id == id then tx else t) })

/-- Result row of `getTransactionSummary`. -/
structure Summary where
  total_income : ℚ
  total_expense : ℚ
  balance : ℚ
  total_count : Nat
  deriving DecidableEq, Repr

/-- Window predicate `date >= startDate AND date <= endDate` (SQLite TEXT
comparison is byte order, matched by the `String` order used here). -/
def inWindow (startDate endDate : String) (t : Transaction) : Bool :=
  !strLt t.date startDate && !strLt endDate t.date

/-- `getTransactionSummary` of `transactionService.js`: the two
`SUM(CASE WHEN ...)` aggregates and `COUNT(*)` over the window; the
`|| 0` fallback for the `NULL` sums of an empty window is the fold's `0`
base case. -/
def getTransactionSummary (s : AppState) (startDate endDate : String) : Summary :=
  let rows := s.transactions.filter (inWindow startDate endDate)
  let totalIncome :=
    rows.foldl (fun acc t => acc + if t.type == "income" then t.amount else 0) 0
  let totalExpense :=
    rows.foldl (fun acc t => acc + if t.type == "expense" then t.amount else 0) 0
  { total_income := totalIncome, total_expense := totalExpense,
    balance := totalIncome - totalExpense, total_count := rows.length }

/-- Result row of `getSpendingByCategory`. -/
structure CategorySpending where
  id : Nat
  name : String
  icon : Option String
  color : Option String
  total_amount : ℚ
  transaction_count : Nat
  deriving DecidableEq, Repr

/-- Descending order on `total_amount`, the `ORDER BY total_amount DESC` of
`getSpendingByCategory`. -/
def spendGE (a b : CategorySpending) : Prop :=
  b.total_amount ≤ a.total_amount

instance : DecidableRel spendGE := fun a b =>
  inferInstanceAs (Decidable (b.total_amount ≤ a.total_amount))

instance : IsTotal CategorySpending spendGE :=
  ⟨fun a b => (le_total b.total_amount a.total_amount).imp id id⟩

instance : IsTrans CategorySpending spendGE :=
  ⟨fun _ _ _ h1 h2 => le_trans h2 h1⟩

/-- The expense rows of category `cid` inside the window — the `WHERE`
clause of `getSpendingByCategory` (the `JOIN` restricting to rows whose
`category_id` matches the category). -/
def expenseRowsOf (s : AppState) (cid : Nat) (startDate endDate : String) :
    List Transaction :=
  s.transactions.filter (fun t =>
    t.category_id == some cid && t.type == "expense" &&
      inWindow startDate endDate t)

/-- The `GROUP BY` stage of `getSpendingByCategory`: one aggregate row per
category having at least one matching expense row. -/
def spendingGroups (s : AppState) (startDate endDate : String) :
    List CategorySpending :=
  s.categories.filterMap (fun c =>
    if (expenseRowsOf s c.id startDate endDate).isEmpty then none
    else some { id := c.id, name := c.name, icon := c.icon, color := c.color,
                total_amount :=
                  ((expenseRowsOf s c.id startDate endDate).map
                    Transaction.amount).sum,
                transaction_count :=
                  (expenseRowsOf s c.id startDate endDate).length })

/-- `getSpendingByCategory` of `transactionService.js`: group the window's
expense rows by (joined) category, aggregate sum and count, order by total
descending (`ORDER BY total_amount DESC`). -/
def getSpendingByCategory (s : AppState) (startDate endDate : String) :
    List CategorySpending :=
  (spendingGroups s startDate endDate).insertionSort spendGE

/-- Input record of `createBudget` / `updateBudget`. -/
structure BudgetInput where
  amount : Option ℚ
  category_id : Option Nat
  period : Option String
  start_date : Option String
  end_date : Option String
  deriving DecidableEq, Repr

/-- `validateBudget` of `budgetService.js`, checks in source order. A
`category_id` of `some 0` fails the `!data.category_id` falsiness guard just
as an absent one does. -/
def validateBudget (d : BudgetInput) : Option DbError :=
  match d.amount with
  | none => some (.validation "Amount must be a number greater than 0")
  | some a =>
    if a ≤ 0 then some (.validation "Amount must be a number greater than 0")
    else match d.category_id with
      | none => some (.validation "Category ID is required and must be a number")
      | some 0 => some (.validation "Category ID is required and must be a number")
      | some _ =>
        match d.period with
        | none => some (.validation "Period must be either \x22monthly\x22 or \x22weekly\x22")
        | some per =>
          if !(per == "monthly" || per == "weekly") then
            some (.validation "Period must be either \x22monthly\x22 or \x22weekly\x22")
          else match d.start_date with
            | none => some (.validation "Start date is required and must be in ISO 8601 format (YYYY-MM-DD)")
            | some sd =>
              if !isDateFormat sd then
                some (.validation "Start date is required and must be in ISO 8601 format (YYYY-MM-DD)")
              else match d.end_date with
                | some ed =>
                  if !isDateFormat ed then
                    some (.validation "End date must be in ISO 8601 format (YYYY-MM-DD)")
                  else if strLt ed sd then
                    some (.validation "End date must be after start date")
                  else none
                | none => none

/-- `createBudget` of `budgetService.js`: validate, check the category
exists, insert. -/
def createBudget (now : String) (d : BudgetInput) (s : AppState) :
    Except DbError (Budget × AppState) :=
  match validateBudget d with
  | some e => .error e
  | none =>
    let cid := d.category_id.getD 0
    if s.categories.any (fun c => c.id == cid) then
      let b : Budget :=
        { id := s.nextBudgetId, category_id := cid, amount := d.amount.getD 0,
          period := d.period.getD "", start_date := d.start_date.getD "",
          end_date := d.end_date, created_at := now, updated_at := now }
      .ok (b, { s with budgets := s.budgets ++ [b],
                       nextBudgetId := s.nextBudgetId + 1 })
    else .error (.notFound s!"Category with id {cid} does not exist")

/-- `getBudgetById` of `budgetService.js`; the inner `JOIN` with
`categories` drops a budget whose category row is missing. -/
def getBudgetById (s : AppState) (id : Nat) : Option Budget :=
  match s.budgets.find? (fun b => b.id == id) with
  | some b => if s.categories.any (fun c => c.id == b.category_id) then some b else none
  | none => none

/-- `updateBudget` of `budgetService.js`: validate, check the budget and the
new category exist, overwrite every column. -/
def updateBudget (now : String) (id : Nat) (d : BudgetInput) (s : AppState) :
    Except DbError (Budget × AppState) :=
  match validateBudget d with
  | some e => .error e
  | none =>
    match getBudgetById s id with
    | none => .error (.notFound s!"Budget with id {id} not found")
    | some existing =>
      let cid := d.category_id.getD 0
      if s.categories.any (fun c => c.id == cid) then
        let b : Budget :=
          { id := id, category_id := cid, amount := d.amount.getD 0,
            period := d.period.getD "", start_date := d.start_date.getD "",
            end_date := d.end_date, created_at := existing.created_at,
            updated_at := now }
        .ok (b, { s with budgets :=
                    s.budgets.map (fun x => if x.id == id then b else x) })
      else .error (.notFound s!"Category with id {cid} does not exist")

/-- Result of `getBudgetProgress`. -/
structure Progress where
  budget_id : Nat
  budget_amount : ℚ
  spent : ℚ
  remaining : ℚ
  percentage : ℚ
  is_exceeded : Bool
  period_start : String
  period_end : String
  deriving DecidableEq, Repr

/-- `Math.round(x * 100) / 100`: round to two decimals, halves away from
zero rounding up exactly as `Math.round` (floor of `x + 1/2`). -/
def round2 (q : ℚ) : ℚ :=
  ((⌊q * 100 + 1 / 2⌋ : ℤ) : ℚ) / 100

/-- `getBudgetProgress` of `budgetService.js`. `today` stands for
`new Date().toISOString().split('T')[0]`. -/
def getBudgetProgress (today : String) (s : AppState) (budgetId : Nat)
    (startDate endDate : Option String) : Except DbError Progress :=
  match getBudgetById s budgetId with
  | none => .error (.notFound s!"Budget with id {budgetId} not found")
  | some budget =>
    let periodStart := startDate.getD budget.start_date
    let periodEnd := endDate.getD today
    let spent :=
      (expenseRowsOf s budget.category_id periodStart periodEnd).foldl
        (fun acc t => acc + t.amount) 0
    let remaining := budget.amount - spent
    let percentage := if 0 < budget.amount then spent / budget.amount * 100 else 0
    .ok { budget_id := budgetId, budget_amount := budget.amount,
          spent := spent, remaining := remaining,
          percentage := round2 percentage,
          is_exceeded := decide (budget.amount < spent),
          period_start := periodStart, period_end := periodEnd }

/-- Modelled from the spec: the three-way status classification on a budget
progress `percentage` that alerting and UI callers must reproduce
(`< 80` on-track, `[80, 100)` warning, `>= 100` exceeded). The classifier
itself is not among the database source files — only its callers and the
repository's design documents describe it — so it is taken from the spec's
words. -/
def statusOfPercentage (p : ℚ) : String :=
  if p < 80 then "on-track"
  else if p < 100 then "warning"
  else "exceeded"

/-- Final state of a service call: the new state on success; on a thrown
error the store is untouched, since every validation error is raised before
the insert or update statement runs. -/
def stateAfter {α : Type} (s : AppState) (r : Except DbError (α × AppState)) :
    AppState :=
  match r with
  | .ok x => x.2
  | .error _ => s

/-- A stored transaction used to exercise the update path. -/
def demoTx : Transaction :=
  { id := 1, amount := 25, description := "coffee", date := "2024-03-05",
    type := "expense", category_id := some 7, is_manually_set := 0,
    source := "sms", raw_data := some "orig", created_at := "T1",
    updated_at := "T1" }

/-- A store holding `demoTx`. -/
def demoS : AppState := { freshState with transactions := [demoTx] }

/-- A seeded category used by the concrete stores below. -/
def demoCat : Category :=
  { id := 1, name := "Food & Dining", icon := some "food",
    color := some "#FF6B6B", is_default := 1, created_at := "T0" }

/-- A second category with no dependents. -/
def demoCat2 : Category :=
  { id := 2, name := "Transport", icon := some "car", color := some "#4ECDC4",
    is_default := 1, created_at := "T0" }

/-- A budget of 200 on `demoCat` for March 2024. -/
def demoBudget : Budget :=
  { id := 1, category_id := 1, amount := 200, period := "monthly",
    start_date := "2024-03-01", end_date := none, created_at := "T0",
    updated_at := "T0" }

/-- A store with one category and one budget and no transactions. -/
def demoSB : AppState :=
  { freshState with categories := [demoCat], budgets := [demoBudget] }

/-- A transaction referencing category 1. -/
def demoTxCat1 : Transaction :=
  { demoTx with id := 2, category_id := some 1 }

/-- A store where category 1 is referenced by a transaction and category 2
is unreferenced. -/
def demoDel : AppState :=
  { freshState with
    categories := [demoCat, demoCat2],
    transactions := [demoTxCat1] }

/-- The progress row computed for `demoSB`'s budget over March 2024. -/
def demoProgress : Progress :=
  { budget_id := 1, budget_amount := 200, spent := 0, remaining := 200,
    percentage := 0, is_exceeded := false, period_start := "2024-03-01",
    period_end := "2024-03-31" }

/-- An income transaction sharing category 1 with expense rows. -/
def demoIncomeTx : Transaction :=
  { demoTx with id := 3, type := "income", category_id := some 1 }

/-! ## Helper lemmas -/

theorem foldl_add_map {α : Type} (f : α → ℚ) (l : List α) (a : ℚ) :
    l.foldl (fun acc x => acc + f x) a = a + (l.map f).sum := by
  induction l generalizing a with
  | nil => simp
  | cons x xs ih => simp [List.foldl_cons, ih, add_assoc]

theorem foldl_add_ite {α : Type} (p : α → Bool) (f : α → ℚ) (l : List α) (a : ℚ) :
    l.foldl (fun acc x => acc + if p x then f x else 0) a
      = a + ((l.filter p).map f).sum := by
  induction l generalizing a with
  | nil => simp
  | cons x xs ih =>
    simp only [List.foldl_cons, ih, List.filter_cons]
    by_cases h : p x <;> simp [h, add_assoc]

theorem round2_cast_div_100 (n : ℤ) : round2 ((n : ℚ) / 100) = (n : ℚ) / 100 := by
  unfold round2
  rw [div_mul_cancel₀ _ (by norm_num : (100 : ℚ) ≠ 0)]
  rw [Int.floor_int_add n (1 / 2)]
  norm_num

theorem round2_zero : round2 0 = 0 := by
  have h := round2_cast_div_100 0
  norm_num at h
  exact h

theorem self_mem_addIfAbsent (l : List String) (x : String) :
    x ∈ addIfAbsent l x := by
  unfold addIfAbsent
  split
  · assumption
  · simp

theorem mem_addIfAbsent_of_mem {l : List String} {x : String} (y : String)
    (h : x ∈ l) : x ∈ addIfAbsent l y := by
  unfold addIfAbsent
  split
  · exact h
  · exact List.mem_append_left _ h

theorem findSetting_upsertSetting_self (st : List SettingRow) (k v now : String) :
    findSetting (upsertSetting st k v now) k = some ⟨k, v, now⟩ := by
  unfold findSetting upsertSetting
  rw [List.find?_append]
  have hnone : (st.filter (fun r => !(r.key == k))).find? (fun r => r.key == k) = none := by
    rw [List.find?_eq_none]
    intro x hx
    rcases List.mem_filter.1 hx with ⟨_, hk⟩
    simpa using hk
  simp [hnone, List.find?]

theorem settings_mem_tables_createTables (s : AppState) :
    "settings" ∈ (createTables s).tables :=
  self_mem_addIfAbsent _ _

theorem tables_setDatabaseVersion (now : String) (v : Nat) (s : AppState) :
    (setDatabaseVersion now v s).tables = s.tables := rfl

theorem tables_createIndexes (s : AppState) :
    (createIndexes s).tables = s.tables := rfl

theorem getDatabaseVersionJS_after_create (now : String) (s : AppState) :
    getDatabaseVersionJS
      (setDatabaseVersion now DATABASE_VERSION (createIndexes (createTables s)))
      = some 1 := by
  unfold getDatabaseVersionJS
  rw [tables_setDatabaseVersion, tables_createIndexes,
    if_pos (settings_mem_tables_createTables s)]
  rw [show (setDatabaseVersion now DATABASE_VERSION (createIndexes (createTables s))).settings
        = upsertSetting s.settings "db_version" "1" now from rfl]
  rw [findSetting_upsertSetting_self]
  rfl

theorem runMigrations_version_none {s : AppState} (now : String)
    (h : getDatabaseVersionJS s = none) : runMigrations now s = s := by
  unfold runMigrations
  rw [h]

theorem runMigrations_version_zero {s : AppState} (now : String)
    (h : getDatabaseVersionJS s = some 0) :
    runMigrations now s
      = setDatabaseVersion now DATABASE_VERSION (createIndexes (createTables s)) := by
  unfold runMigrations
  rw [h]
  rfl

theorem runMigrations_version_ge_one {s : AppState} {k : Nat} (now : String)
    (h : getDatabaseVersionJS s = some (k + 1)) : runMigrations now s = s := by
  unfold runMigrations
  rw [h]
  have h1 : ((k + 1 : Nat) == 0) = false := by simp
  have h2 : ¬ (k + 1 < DATABASE_VERSION) := by unfold DATABASE_VERSION; omega
  simp [h1, h2]

/-! ## Migration claims -/

/-- Claim C8: `runMigrations` is idempotent — a second run is a no-op
leaving the schema and the stored `db_version` unchanged (no duplicate-table
errors can arise since the second run executes no DDL) — and `isFirstLaunch`
is true before any version key exists and false after a migration run. -/
theorem runMigrations_idempotent_and_firstLaunch (now now2 : String) (s : AppState) :
    runMigrations now2 (runMigrations now s) = runMigrations now s ∧
    (findSetting s.settings "db_version" = none → isFirstLaunch s = true) ∧
    isFirstLaunch (runMigrations now s) = false := by
  refine ⟨?_, ?_, ?_⟩
  · rcases h : getDatabaseVersionJS s with _ | v
    · rw [runMigrations_version_none now h, runMigrations_version_none now2 h]
    · rcases v with _ | k
      · rw [runMigrations_version_zero now h]
        exact runMigrations_version_ge_one now2 (getDatabaseVersionJS_after_create now s)
      · rw [runMigrations_version_ge_one now h, runMigrations_version_ge_one now2 h]
  · intro hnone
    unfold isFirstLaunch getDatabaseVersionJS
    split
    · rw [hnone]
      rfl
    · rfl
  · rcases h : getDatabaseVersionJS s with _ | v
    · rw [runMigrations_version_none now h]
      unfold isFirstLaunch
      rw [h]
      rfl
    · rcases v with _ | k
      · rw [runMigrations_version_zero now h]
        unfold isFirstLaunch
        rw [getDatabaseVersionJS_after_create now s]
        rfl
      · rw [runMigrations_version_ge_one now h]
        unfold isFirstLaunch
        rw [h]
        simp

/-- Witness for C8 at a concrete fresh store. -/
theorem runMigrations_idempotent_and_firstLaunch_witness :
    runMigrations "t2" (runMigrations "t1" freshState) = runMigrations "t1" freshState ∧
    isFirstLaunch freshState = true ∧
    isFirstLaunch (runMigrations "t1" freshState) = false := by
  have h := runMigrations_idempotent_and_firstLaunch "t1" "t2" freshState
  exact ⟨h.1, h.2.1 rfl, h.2.2⟩

/-- Claim C1: on a fresh store, `initializeDatabase` runs the migrations —
which persist `db_version` — and only then evaluates `isFirstLaunch()`,
which is therefore already false, so `seedDefaultCategories` and
`initializeDefaultSettings` never execute: the initialized store has no
categories and no settings besides `db_version`, although the store was in
the first-launch state when `initializeDatabase` was called. This
contradicts the claimed first-launch seeding. -/
theorem initializeDatabase_never_seeds_on_fresh_store :
    isFirstLaunch freshState = true ∧
    initializeDatabase "T0" freshState = .ok (runMigrations "T0" freshState) ∧
    (runMigrations "T0" freshState).categories = [] ∧
    ((runMigrations "T0" freshState).settings.map SettingRow.key) = ["db_version"] := by
  refine ⟨rfl, ?_, rfl, rfl⟩
  rfl

/-! ## Service-layer claims -/

theorem validateTransaction_nonpos (d : TxInput)
    (h : d.amount = none ∨ ∃ a, d.amount = some a ∧ a ≤ 0) :
    validateTransaction d
      = some (.validation "Amount must be a number greater than 0") := by
  unfold validateTransaction
  rcases h with h | ⟨a, h, hle⟩ <;> simp only [h]
  rw [if_pos hle]

theorem validateBudget_nonpos (d : BudgetInput)
    (h : d.amount = none ∨ ∃ a, d.amount = some a ∧ a ≤ 0) :
    validateBudget d
      = some (.validation "Amount must be a number greater than 0") := by
  unfold validateBudget
  rcases h with h | ⟨a, h, hle⟩ <;> simp only [h]
  rw [if_pos hle]

/-- Claim C4: `createTransaction` and `createBudget` reject an absent,
non-numeric or non-positive `amount` with the amount ValidationError, before
any insert — the store state is unchanged. -/
theorem create_rejects_nonpositive_amount
    (now today : String) (dt : TxInput) (db : BudgetInput) (s : AppState)
    (ht : dt.amount = none ∨ ∃ a, dt.amount = some a ∧ a ≤ 0)
    (hb : db.amount = none ∨ ∃ a, db.amount = some a ∧ a ≤ 0) :
    createTransaction now today dt s
        = .error (.validation "Amount must be a number greater than 0") ∧
    stateAfter s (createTransaction now today dt s) = s ∧
    createBudget now db s
        = .error (.validation "Amount must be a number greater than 0") ∧
    stateAfter s (createBudget now db s) = s := by
  have h1 : createTransaction now today dt s
      = .error (.validation "Amount must be a number greater than 0") := by
    unfold createTransaction
    rw [validateTransaction_nonpos dt ht]
  have h2 : createBudget now db s
      = .error (.validation "Amount must be a number greater than 0") := by
    unfold createBudget
    rw [validateBudget_nonpos db hb]
  refine ⟨h1, ?_, h2, ?_⟩
  · rw [h1]
    rfl
  · rw [h2]
    rfl

/-- Witness for C4: a transaction payload with amount −5 and a budget payload
with a missing amount are both rejected on the fresh store. -/
theorem create_rejects_nonpositive_amount_witness :
    createTransaction "T" "2024-01-01"
        { amount := some (-5), description := some "x", date := none,
          type := some "expense", category_id := none,
          is_manually_set := false, source := none, raw_data := none }
        freshState
      = .error (.validation "Amount must be a number greater than 0") ∧
    createBudget "T"
        { amount := none, category_id := some 1, period := some "monthly",
          start_date := some "2024-01-01", end_date := none } freshState
      = .error (.validation "Amount must be a number greater than 0") := by
  have h := create_rejects_nonpositive_amount "T" "2024-01-01"
    { amount := some (-5), description := some "x", date := none,
      type := some "expense", category_id := none,
      is_manually_set := false, source := none, raw_data := none }
    { amount := none, category_id := some 1, period := some "monthly",
      start_date := some "2024-01-01", end_date := none }
    freshState
    (Or.inr ⟨-5, rfl, by norm_num⟩) (Or.inl rfl)
  exact ⟨h.1, h.2.2.1⟩

/-- Claim C10: with a valid payload, `updateTransaction` keeps the stored
`date`, `source` and `raw_data` when those payload fields are omitted, but
resets `category_id` to null when `category_id` is omitted or falsy. -/
theorem updateTransaction_frame_asymmetry
    (now : String) (id : Nat) (d : TxInput) (s : AppState)
    (existing : Transaction)
    (hfind : getTransactionById s id = some existing)
    (hval : validateTransaction d = none)
    (hdate : d.date = none) (hsource : d.source = none)
    (hraw : d.raw_data = none)
    (hcat : d.category_id = none ∨ d.category_id = some 0) :
    ∃ tx s2, updateTransaction now id d s = .ok (tx, s2) ∧
      tx.date = existing.date ∧ tx.source = existing.source ∧
      tx.raw_data = existing.raw_data ∧ tx.category_id = none := by
  unfold updateTransaction
  rw [hval, hfind]
  refine ⟨_, _, rfl, ?_, ?_, ?_, ?_⟩
  · rw [show (_ : Transaction).date = d.date.getD existing.date from rfl, hdate]
    rfl
  · rw [show (_ : Transaction).source = d.source.getD existing.source from rfl,
      hsource]
    rfl
  · rw [show (_ : Transaction).raw_data = d.raw_data.or existing.raw_data from rfl,
      hraw]
    rfl
  · rw [show (_ : Transaction).category_id = jsIdOrNull d.category_id from rfl]
    rcases hcat with h | h <;> rw [h] <;> rfl

/-- Witness for C10: updating `demoTx` with a payload that omits `date`,
`source`, `raw_data` and `category_id` keeps the first three and nulls the
category. -/
theorem updateTransaction_frame_asymmetry_witness :
    ∃ tx s2,
      updateTransaction "T2" 1
        { amount := some 30, description := some "espresso", date := none,
          type := some "expense", category_id := none,
          is_manually_set := true, source := none, raw_data := none }
        demoS
        = .ok (tx, s2) ∧
      tx.date = demoTx.date ∧ tx.source = demoTx.source ∧
      tx.raw_data = demoTx.raw_data ∧ tx.category_id = none :=
  updateTransaction_frame_asymmetry "T2" 1
    { amount := some 30, description := some "espresso", date := none,
      type := some "expense", category_id := none,
      is_manually_set := true, source := none, raw_data := none }
    demoS demoTx (by decide) (by decide) rfl rfl rfl (Or.inl rfl)

theorem validateBudget_valid_fields
    (d : BudgetInput) (a : ℚ) (k : Nat) (per sd : String)
    (ham : d.amount = some a) (hapos : 0 < a)
    (hcid : d.category_id = some (k + 1))
    (hperd : d.period = some per) (hper : per = "monthly" ∨ per = "weekly")
    (hsd : d.start_date = some sd) (hsdf : isDateFormat sd = true) :
    validateBudget d
      = (match d.end_date with
        | some ed =>
          if !isDateFormat ed then
            some (.validation "End date must be in ISO 8601 format (YYYY-MM-DD)")
          else if strLt ed sd then
            some (.validation "End date must be after start date")
          else none
        | none => none) := by
  unfold validateBudget
  simp only [ham, hcid, hperd, hsd]
  rw [if_neg (not_le.mpr hapos)]
  rcases hper with rfl | rfl <;> simp [hsdf]

/-- Claim C9: with every other `createBudget`/`updateBudget` field valid, a
present date-formatted `end_date` is accepted exactly when it is not
strictly before `start_date`, a strictly-earlier `end_date` is rejected
with the dedicated ValidationError, and an absent `end_date` is accepted
and stored as null. -/
theorem budget_end_date_validation
    (now : String) (s : AppState) (d : BudgetInput) (a : ℚ) (k : Nat)
    (per sd : String)
    (ham : d.amount = some a) (hapos : 0 < a)
    (hcid : d.category_id = some (k + 1))
    (hperd : d.period = some per) (hper : per = "monthly" ∨ per = "weekly")
    (hsd : d.start_date = some sd) (hsdf : isDateFormat sd = true)
    (hcex : s.categories.any (fun c => c.id == k + 1) = true) :
    (∀ ed, d.end_date = some ed → isDateFormat ed = true →
       (strLt ed sd = false →
          ∃ b s2, createBudget now d s = .ok (b, s2) ∧ b.end_date = some ed) ∧
       (strLt ed sd = true →
          createBudget now d s
            = .error (.validation "End date must be after start date"))) ∧
    (d.end_date = none →
       ∃ b s2, createBudget now d s = .ok (b, s2) ∧ b.end_date = none) ∧
    (∀ id existing, getBudgetById s id = some existing →
       (∀ ed, d.end_date = some ed → isDateFormat ed = true →
          (strLt ed sd = false →
             ∃ b s2, updateBudget now id d s = .ok (b, s2) ∧ b.end_date = some ed) ∧
          (strLt ed sd = true →
             updateBudget now id d s
               = .error (.validation "End date must be after start date"))) ∧
       (d.end_date = none →
          ∃ b s2, updateBudget now id d s = .ok (b, s2) ∧ b.end_date = none)) := by
  have hv := validateBudget_valid_fields d a k per sd ham hapos hcid hperd hper hsd hsdf
  refine ⟨?_, ?_, ?_⟩
  · intro ed hed hf
    constructor
    · intro hge
      unfold createBudget
      rw [hv, hed]
      simp only [hf, hge, Bool.not_true, Bool.false_eq_true, if_false]
      simp only [hcid, Option.getD_some, hcex, if_true]
      exact ⟨_, _, rfl, rfl⟩
    · intro hlt
      unfold createBudget
      rw [hv, hed]
      simp only [hf, hlt, Bool.not_true, Bool.false_eq_true, if_false, if_true]
  · intro hed
    unfold createBudget
    rw [hv, hed]
    simp only [hcid, Option.getD_some, hcex, if_true]
    exact ⟨_, _, rfl, rfl⟩
  · intro id existing hfindb
    constructor
    · intro ed hed hf
      constructor
      · intro hge
        unfold updateBudget
        rw [hv, hed]
        simp only [hf, hge, Bool.not_true, Bool.false_eq_true, if_false]
        rw [hfindb]
        simp only [hcid, Option.getD_some, hcex, if_true]
        exact ⟨_, _, rfl, rfl⟩
      · intro hlt
        unfold updateBudget
        rw [hv, hed]
        simp only [hf, hlt, Bool.not_true, Bool.false_eq_true, if_false, if_true]
    · intro hed
      unfold updateBudget
      rw [hv, hed]
      rw [hfindb]
      simp only [hcid, Option.getD_some, hcex, if_true]
      exact ⟨_, _, rfl, rfl⟩

/-- Witness for C9: on `demoSB`, an `end_date` after `start_date` is
accepted and stored, and an `end_date` before `start_date` is rejected. -/
theorem budget_end_date_validation_witness :
    (∃ b s2,
       createBudget "T1"
         { amount := some 150, category_id := some 1, period := some "monthly",
           start_date := some "2024-03-01", end_date := some "2024-03-31" }
         demoSB
         = .ok (b, s2) ∧ b.end_date = some "2024-03-31") ∧
    createBudget "T1"
      { amount := some 150, category_id := some 1, period := some "monthly",
        start_date := some "2024-03-01", end_date := some "2024-02-01" }
      demoSB
      = .error (.validation "End date must be after start date") := by
  have h1 := budget_end_date_validation "T1" demoSB
    { amount := some 150, category_id := some 1, period := some "monthly",
      start_date := some "2024-03-01", end_date := some "2024-03-31" }
    150 0 "monthly" "2024-03-01" rfl (by decide) rfl rfl (Or.inl rfl) rfl
    (by decide) (by decide)
  have h2 := budget_end_date_validation "T1" demoSB
    { amount := some 150, category_id := some 1, period := some "monthly",
      start_date := some "2024-03-01", end_date := some "2024-02-01" }
    150 0 "monthly" "2024-03-01" rfl (by decide) rfl rfl (Or.inl rfl) rfl
    (by decide) (by decide)
  exact ⟨(h1.1 "2024-03-31" rfl (by decide)).1 (by decide),
         (h2.1 "2024-02-01" rfl (by decide)).2 (by decide)⟩

/-- Claim C6: `getTransactionSummary` returns the income sum, the expense
sum, their difference, and the row count of the window, and an empty window
yields all zeros rather than an error. -/
theorem getTransactionSummary_spec (s : AppState) (a b : String) :
    (getTransactionSummary s a b).total_income
        = (((s.transactions.filter (inWindow a b)).filter
              (fun t => t.type == "income")).map Transaction.amount).sum ∧
    (getTransactionSummary s a b).total_expense
        = (((s.transactions.filter (inWindow a b)).filter
              (fun t => t.type == "expense")).map Transaction.amount).sum ∧
    (getTransactionSummary s a b).balance
        = (getTransactionSummary s a b).total_income
            - (getTransactionSummary s a b).total_expense ∧
    (getTransactionSummary s a b).total_count
        = (s.transactions.filter (inWindow a b)).length ∧
    (s.transactions.filter (inWindow a b) = [] →
        getTransactionSummary s a b = ⟨0, 0, 0, 0⟩) := by
  refine ⟨?_, ?_, rfl, rfl, ?_⟩
  · unfold getTransactionSummary
    simp only [foldl_add_ite, zero_add]
  · unfold getTransactionSummary
    simp only [foldl_add_ite, zero_add]
  · intro h
    unfold getTransactionSummary
    rw [h]
    norm_num

/-- Witness for C6: the empty window on the fresh store gives the all-zero
summary. -/
theorem getTransactionSummary_spec_witness :
    getTransactionSummary freshState "2024-01-01" "2024-01-31" = ⟨0, 0, 0, 0⟩ :=
  (getTransactionSummary_spec freshState "2024-01-01" "2024-01-31").2.2.2.2 rfl

/-- Claim C2: `getBudgetProgress` on an existing budget returns the expense
sum over the budget's category in the (defaulted) period, the derived
`remaining`, the rounded `percentage` with the amount-zero guard, and the
strict `is_exceeded` flag; zero spending gives percentage 0 and
`remaining = amount`. -/
theorem getBudgetProgress_spec
    (today : String) (s : AppState) (budgetId : Nat) (sd ed : Option String)
    (budget : Budget) (hfind : getBudgetById s budgetId = some budget)
    (hamnn : 0 ≤ budget.amount) :
    ∃ p, getBudgetProgress today s budgetId sd ed = .ok p ∧
      p.budget_amount = budget.amount ∧
      p.period_start = sd.getD budget.start_date ∧
      p.period_end = ed.getD today ∧
      p.spent = ((expenseRowsOf s budget.category_id p.period_start
          p.period_end).map Transaction.amount).sum ∧
      p.remaining = budget.amount - p.spent ∧
      p.percentage = (if budget.amount = 0 then 0
          else round2 (p.spent / budget.amount * 100)) ∧
      (p.is_exceeded = true ↔ budget.amount < p.spent) ∧
      (p.spent = 0 → p.percentage = 0 ∧ p.remaining = budget.amount) := by
  unfold getBudgetProgress
  rw [hfind]
  refine ⟨_, rfl, rfl, rfl, rfl, ?_, rfl, ?_, ?_, ?_⟩
  · show (expenseRowsOf s budget.category_id _ _).foldl
        (fun acc t => acc + t.amount) 0 = _
    rw [foldl_add_map Transaction.amount]
    rw [zero_add]
  · show round2 _ = _
    rcases eq_or_lt_of_le hamnn with h0 | hpos
    · rw [if_neg (by rw [← h0]; exact lt_irrefl 0), if_pos h0.symm]
      exact round2_zero
    · rw [if_pos hpos, if_neg (ne_of_gt hpos)]
  · show decide _ = true ↔ _
    exact decide_eq_true_iff
  · intro h
    constructor
    · show round2 _ = 0
      rw [show (expenseRowsOf s budget.category_id (sd.getD budget.start_date)
            (ed.getD today)).foldl (fun acc t => acc + t.amount) 0 = 0 from h]
      rw [zero_div, zero_mul, ite_self]
      exact round2_zero
    · show budget.amount - _ = budget.amount
      rw [show (expenseRowsOf s budget.category_id (sd.getD budget.start_date)
            (ed.getD today)).foldl (fun acc t => acc + t.amount) 0 = 0 from h]
      rw [sub_zero]

/-- Witness for C2 on the concrete store `demoSB`. -/
theorem getBudgetProgress_spec_witness :
    ∃ p, getBudgetProgress "2024-03-31" demoSB 1 none none = .ok p ∧
      p.budget_amount = demoBudget.amount ∧
      p.period_start = demoBudget.start_date ∧
      p.period_end = "2024-03-31" ∧
      p.spent = ((expenseRowsOf demoSB demoBudget.category_id p.period_start
          p.period_end).map Transaction.amount).sum ∧
      p.remaining = demoBudget.amount - p.spent ∧
      p.percentage = (if demoBudget.amount = 0 then 0
          else round2 (p.spent / demoBudget.amount * 100)) ∧
      (p.is_exceeded = true ↔ demoBudget.amount < p.spent) ∧
      (p.spent = 0 → p.percentage = 0 ∧ p.remaining = demoBudget.amount) :=
  getBudgetProgress_spec "2024-03-31" demoSB 1 none none demoBudget
    (by decide) (by decide)

theorem statusOfPercentage_cases (q : ℚ) :
    (statusOfPercentage q = "on-track" ↔ q < 80) ∧
    (statusOfPercentage q = "warning" ↔ 80 ≤ q ∧ q < 100) ∧
    (statusOfPercentage q = "exceeded" ↔ 100 ≤ q) := by
  unfold statusOfPercentage
  by_cases h80 : q < 80
  · rw [if_pos h80]
    refine ⟨⟨fun _ => h80, fun _ => rfl⟩, ?_, ?_⟩
    · exact ⟨fun h => absurd h (by decide), fun h => absurd h80 (not_lt.2 h.1)⟩
    · exact ⟨fun h => absurd h (by decide),
        fun h => absurd h80 (not_lt.2 (le_trans (by norm_num) h))⟩
  · rw [if_neg h80]
    by_cases h100 : q < 100
    · rw [if_pos h100]
      refine ⟨?_, ?_, ?_⟩
      · exact ⟨fun h => absurd h (by decide), fun h => absurd h h80⟩
      · exact ⟨fun _ => ⟨not_lt.1 h80, h100⟩, fun _ => rfl⟩
      · exact ⟨fun h => absurd h (by decide), fun h => absurd h100 (not_lt.2 h)⟩
    · rw [if_neg h100]
      refine ⟨?_, ?_, ?_⟩
      · exact ⟨fun h => absurd h (by decide),
          fun h => absurd h (not_lt.2 (le_trans (by norm_num) (not_lt.1 h100)))⟩
      · exact ⟨fun h => absurd h (by decide), fun h => absurd h.2 h100⟩
      · exact ⟨fun _ => not_lt.1 h100, fun _ => rfl⟩

theorem getBudgetProgress_ok_inv
    (today : String) (s : AppState) (budgetId : Nat) (sd ed : Option String)
    (p : Progress)
    (hok : getBudgetProgress today s budgetId sd ed = .ok p) :
    ∃ budget, getBudgetById s budgetId = some budget ∧
      p.budget_amount = budget.amount ∧
      p.spent = (expenseRowsOf s budget.category_id (sd.getD budget.start_date)
          (ed.getD today)).foldl (fun acc t => acc + t.amount) 0 ∧
      p.percentage
        = round2 (if 0 < budget.amount then p.spent / budget.amount * 100 else 0) := by
  rcases hb : getBudgetById s budgetId with _ | budget
  · rw [getBudgetProgress, hb] at hok
    exact absurd hok (by simp)
  · rw [getBudgetProgress, hb] at hok
    simp only [Except.ok.injEq] at hok
    subst hok
    exact ⟨budget, rfl, rfl, rfl, rfl⟩

/-- Claim C3: the status derived from a budget progress percentage uses
half-open boundaries (`< 80` on-track, `[80, 100)` warning, `>= 100`
exceeded); in particular spending 79.99% of the amount classifies on-track,
exactly 80% warning, and exactly 100% exceeded. -/
theorem budget_status_thresholds
    (today : String) (s : AppState) (budgetId : Nat) (sd ed : Option String)
    (p : Progress)
    (hok : getBudgetProgress today s budgetId sd ed = .ok p) :
    (statusOfPercentage p.percentage = "on-track" ↔ p.percentage < 80) ∧
    (statusOfPercentage p.percentage = "warning" ↔
       80 ≤ p.percentage ∧ p.percentage < 100) ∧
    (statusOfPercentage p.percentage = "exceeded" ↔ 100 ≤ p.percentage) ∧
    (0 < p.budget_amount →
       ((p.spent = 7999 / 10000 * p.budget_amount →
           statusOfPercentage p.percentage = "on-track") ∧
        (p.spent = 80 / 100 * p.budget_amount →
           statusOfPercentage p.percentage = "warning") ∧
        (p.spent = p.budget_amount →
           statusOfPercentage p.percentage = "exceeded"))) := by
  obtain ⟨budget, hb, hba, hsp, hperc⟩ :=
    getBudgetProgress_ok_inv today s budgetId sd ed p hok
  refine ⟨(statusOfPercentage_cases p.percentage).1,
    (statusOfPercentage_cases p.percentage).2.1,
    (statusOfPercentage_cases p.percentage).2.2, ?_⟩
  intro hpos
  rw [hba] at hpos
  have hA : budget.amount ≠ 0 := ne_of_gt hpos
  rw [if_pos hpos] at hperc
  refine ⟨?_, ?_, ?_⟩
  · intro hs
    rw [hba] at hs
    have hp : p.percentage = 7999 / 100 := by
      rw [hperc, hs]
      rw [show 7999 / 10000 * budget.amount / budget.amount * 100
            = (7999 / 100 : ℚ) by field_simp; ring]
      have h := round2_cast_div_100 7999
      push_cast at h
      exact h
    exact (statusOfPercentage_cases p.percentage).1.mpr (by rw [hp]; norm_num)
  · intro hs
    rw [hba] at hs
    have hp : p.percentage = 80 := by
      rw [hperc, hs]
      rw [show 80 / 100 * budget.amount / budget.amount * 100
            = (8000 / 100 : ℚ) by field_simp; ring]
      have h := round2_cast_div_100 8000
      push_cast at h
      rw [h]
      norm_num
    exact (statusOfPercentage_cases p.percentage).2.1.mpr
      (by rw [hp]; norm_num)
  · intro hs
    rw [hba] at hs
    have hp : p.percentage = 100 := by
      rw [hperc, hs]
      rw [show budget.amount / budget.amount * 100 = (10000 / 100 : ℚ) by
        rw [div_self hA]; norm_num]
      have h := round2_cast_div_100 10000
      push_cast at h
      rw [h]
      norm_num
    exact (statusOfPercentage_cases p.percentage).2.2.mpr (by rw [hp])

/-- Witness for C3: on `demoSB` (no spending) the progress percentage is 0
and the classification is on-track. -/
theorem budget_status_thresholds_witness :
    statusOfPercentage demoProgress.percentage = "on-track" := by
  have h1 : getBudgetById demoSB 1 = some demoBudget := by decide
  have h2 : expenseRowsOf demoSB demoBudget.category_id
      (Option.getD none demoBudget.start_date) (Option.getD none "2024-03-31")
      = [] := by decide
  have hok : getBudgetProgress "2024-03-31" demoSB 1 none none
      = .ok demoProgress := by
    rw [getBudgetProgress, h1]
    simp only []
    rw [h2]
    norm_num [demoProgress, demoBudget, round2_zero, Progress.mk.injEq]
  exact (budget_status_thresholds "2024-03-31" demoSB 1 none none demoProgress
    hok).1.mpr (by norm_num [demoProgress])

/-- Claim C5: `deleteCategory` refuses to delete a category with dependent
transactions or budgets (naming the dependent count, never cascading),
deletes an unreferenced category and nothing else, and a repeated delete of
the same id fails with the NotFoundError naming the id. -/
theorem deleteCategory_blocking_spec
    (s : AppState) (id : Nat) (c : Category) (n m : Nat)
    (hfind : getCategoryById s id = some c)
    (hn : n = (s.transactions.filter (fun t => t.category_id == some id)).length)
    (hm : m = (s.budgets.filter (fun b => b.category_id == id)).length) :
    (0 < n → deleteCategory s id = .error (.constraint
        s!"Cannot delete category with {n} associated transaction(s)")) ∧
    (n = 0 → 0 < m → deleteCategory s id = .error (.constraint
        s!"Cannot delete category with {m} associated budget(s)")) ∧
    (n = 0 → m = 0 →
       ∃ s2, deleteCategory s id = .ok s2 ∧
         s2.categories = s.categories.filter (fun x => !(x.id == id)) ∧
         s2.transactions = s.transactions ∧ s2.budgets = s.budgets ∧
         s2.settings = s.settings ∧
         deleteCategory s2 id
           = .error (.notFound s!"Category with id {id} not found")) := by
  refine ⟨?_, ?_, ?_⟩
  · intro hpos
    unfold deleteCategory
    rw [hfind, ← hn, if_pos hpos]
  · intro h0 hmpos
    unfold deleteCategory
    rw [hfind, ← hn, ← hm, h0]
    rw [if_neg (lt_irrefl 0), if_pos hmpos]
  · intro h0 hm0
    have hok : deleteCategory s id
        = .ok { s with categories := s.categories.filter (fun x => !(x.id == id)) } := by
      unfold deleteCategory
      rw [hfind, ← hn, ← hm, h0, hm0]
      rw [if_neg (lt_irrefl 0), if_neg (lt_irrefl 0)]
    refine ⟨_, hok, rfl, rfl, rfl, rfl, ?_⟩
    have hnone : getCategoryById
        { s with categories := s.categories.filter (fun x => !(x.id == id)) } id
        = none := by
      unfold getCategoryById
      rw [List.find?_eq_none]
      intro x hx
      rcases List.mem_filter.1 hx with ⟨_, h2⟩
      simpa using h2
    unfold deleteCategory
    rw [hnone]

/-- Witness for C5 on `demoDel`: category 1 (one dependent transaction) is
blocked; category 2 is deleted, and the second delete of id 2 is a
NotFoundError. -/
theorem deleteCategory_blocking_spec_witness :
    deleteCategory demoDel 1 = .error (.constraint
        "Cannot delete category with 1 associated transaction(s)") ∧
    (∃ s2, deleteCategory demoDel 2 = .ok s2 ∧
       s2.categories = [demoCat] ∧ s2.transactions = demoDel.transactions ∧
       deleteCategory s2 2
         = .error (.notFound "Category with id 2 not found")) := by
  have h1 := deleteCategory_blocking_spec demoDel 1 demoCat 1 0
    (by decide) (by decide) (by decide)
  have h2 := deleteCategory_blocking_spec demoDel 2 demoCat2 0 0
    (by decide) (by decide) (by decide)
  refine ⟨h1.1 (by norm_num), ?_⟩
  obtain ⟨s2, hdel, hcat, htx, _, _, hsecond⟩ := h2.2.2 rfl rfl
  exact ⟨s2, hdel, by rw [hcat]; decide, htx, hsecond⟩

/-- Claim C7: `getSpendingByCategory` aggregates only expense-typed rows,
grouped by category with per-group total and count, ordered by total
descending; an income row contributes nothing, even in a category shared
with expenses. -/
theorem getSpendingByCategory_spec (s : AppState) (a b : String) :
    (∀ e ∈ getSpendingByCategory s a b,
       e.total_amount = ((expenseRowsOf s e.id a b).map Transaction.amount).sum ∧
       e.transaction_count = (expenseRowsOf s e.id a b).length ∧
       expenseRowsOf s e.id a b ≠ []) ∧
    List.Sorted spendGE (getSpendingByCategory s a b) ∧
    (∀ tx : Transaction, tx.type = "income" →
       getSpendingByCategory { s with transactions := tx :: s.transactions } a b
         = getSpendingByCategory s a b) := by
  refine ⟨?_, ?_, ?_⟩
  · intro e he
    unfold getSpendingByCategory at he
    rw [List.mem_insertionSort] at he
    unfold spendingGroups at he
    obtain ⟨c, hc, hfc⟩ := List.mem_filterMap.1 he
    by_cases hemp : (expenseRowsOf s c.id a b).isEmpty
    · rw [if_pos hemp] at hfc
      exact absurd hfc (by simp)
    · rw [if_neg hemp] at hfc
      obtain he2 := Option.some.inj hfc
      subst he2
      exact ⟨rfl, rfl, fun hnil => hemp (List.isEmpty_iff.2 hnil)⟩
  · unfold getSpendingByCategory
    exact List.sorted_insertionSort spendGE _
  · intro tx htx
    have hrows : ∀ cid, expenseRowsOf
        { s with transactions := tx :: s.transactions } cid a b
        = expenseRowsOf s cid a b := by
      intro cid
      unfold expenseRowsOf
      rw [show ({ s with transactions := tx :: s.transactions }
            : AppState).transactions = tx :: s.transactions from rfl]
      rw [List.filter_cons]
      rw [show (tx.category_id == some cid && tx.type == "expense" &&
            inWindow a b tx) = false from by rw [htx]; simp]
      simp
    have hgroups : spendingGroups
        { s with transactions := tx :: s.transactions } a b
        = spendingGroups s a b := by
      unfold spendingGroups
      rw [show ({ s with transactions := tx :: s.transactions }
            : AppState).categories = s.categories from rfl]
      apply List.filterMap_congr
      intro c hc
      rw [hrows c.id]
    unfold getSpendingByCategory
    rw [hgroups]

/-- Witness for C7: the output on `demoDel` is sorted descending, and
prepending an income transaction in the shared category changes nothing. -/
theorem getSpendingByCategory_spec_witness :
    List.Sorted spendGE
      (getSpendingByCategory demoDel "2024-01-01" "2024-12-31") ∧
    getSpendingByCategory
        { demoDel with transactions := demoIncomeTx :: demoDel.transactions }
        "2024-01-01" "2024-12-31"
      = getSpendingByCategory demoDel "2024-01-01" "2024-12-31" := by
  have h := getSpendingByCategory_spec demoDel "2024-01-01" "2024-12-31"
  exact ⟨h.2.1, h.2.2 demoIncomeTx rfl⟩

end Finance
